import Mathlib

/-!
Verification development for the CNV VCF analyzer (src/cnv_analyzer.py).

The Python source is shallowly embedded: lines and strings are lists of
characters (`Chars`), Python exceptions become the `PyErr` sum type, and each
method of the analyzer class becomes a pure Lean function.  Error-name map
used throughout (spec name on the left, Python exception in the source on the
right, Lean constructor last):
  MalformedInputError      = RuntimeError       = PyErr.runtimeError
  NoVariantsFoundError     = NoCnvFoundError    = PyErr.noCnvFound
  InvalidArgumentError     = TypeError          = PyErr.typeError
  NoMatchIsNotVariantError = NotCnvError        = PyErr.notCnvError
An unbound local read (Python UnboundLocalError) is PyErr.nameError; the
pandas row-length mismatch and the empty-separator split are PyErr.valueError.
-/

namespace CnvAnalyzer

abbrev Chars := List Char

/-- Python str.rstrip: drop trailing whitespace. -/
def pyRstrip (s : Chars) : Chars :=
  (s.reverse.dropWhile Char.isWhitespace).reverse

/-- Python str.strip: drop leading and trailing whitespace. -/
def pyStrip (s : Chars) : Chars :=
  pyRstrip (s.dropWhile Char.isWhitespace)

/-- Python substring membership test (the `in` operator on strings). -/
def containsSub : Chars → Chars → Bool
  | [], pat => pat.isEmpty
  | c :: rest, pat => pat.isPrefixOf (c :: rest) || containsSub rest pat

/-- Python str.isdigit (ASCII digits): nonempty and all digits. -/
def pyIsdigit (s : Chars) : Bool :=
  !s.isEmpty && s.all Char.isDigit

/-- Split at every occurrence of a separator character, keeping empty pieces:
Python str.split(sep) semantics. -/
def splitOnC (sep : Char) : Chars → List Chars
  | [] => [[]]
  | c :: rest =>
    if c = sep then [] :: splitOnC sep rest
    else
      match splitOnC sep rest with
      | [] => [[c]]
      | t :: ts => (c :: t) :: ts

/-- Split on runs of one or more tabs, as re.split on a tab-plus pattern does:
empty pieces survive only at the two ends. -/
def splitTabPlus (s : Chars) : List Chars :=
  match splitOnC '\t' s with
  | [] => []
  | [a] => [a]
  | a :: rest => a :: (rest.dropLast.filter (fun t => !t.isEmpty) ++ [rest.getLastD []])

/-- Split at the first occurrence of a separator character only (Python
str.split(sep, 1)); none when the separator is absent. -/
def splitOnceChar (sep : Char) : Chars → Option (Chars × Chars)
  | [] => none
  | c :: rest =>
    if c = sep then some ([], rest)
    else (splitOnceChar sep rest).map (fun p => (c :: p.1, p.2))

/-- Split at the first occurrence of a substring (Python str.split(pat, 1));
none when the substring is absent. -/
def splitOnceSub (pat : Chars) : Chars → Option (Chars × Chars)
  | [] => if pat.isEmpty then some ([], []) else none
  | c :: rest =>
    if pat.isPrefixOf (c :: rest) then some ([], (c :: rest).drop pat.length)
    else (splitOnceSub pat rest).map (fun p => (c :: p.1, p.2))

/-- Piece before the first occurrence of a substring, or the whole string when
the substring is absent: Python str.split(pat, 1) indexed at 0. -/
def firstSplitBefore (pat : Chars) (s : Chars) : Chars :=
  match splitOnceSub pat s with
  | some p => p.1
  | none => s

/-- Fuel-indexed worker for eraseAllSub; every step consumes at least one
character, so fuel equal to the length is enough.  Structural recursion on the
fuel keeps the definition kernel-reducible. -/
def eraseSubFuel (pat : Chars) : Nat → Chars → Chars
  | _, [] => []
  | 0, s => s
  | fuel + 1, c :: rest =>
    if !pat.isEmpty && pat.isPrefixOf (c :: rest) then
      eraseSubFuel pat fuel (rest.drop (pat.length - 1))
    else c :: eraseSubFuel pat fuel rest

/-- Replace every non-overlapping occurrence of a literal pattern by nothing,
left to right, as re.sub with a literal pattern and empty replacement does.
An empty pattern leaves the string unchanged. -/
def eraseAllSub (pat : Chars) (s : Chars) : Chars :=
  eraseSubFuel pat s.length s

/-- Python-style last element of a list with negative index -1; the lists it
is applied to here are never empty. -/
def lastTok (l : List Chars) : Chars := l.getLastD []

/-- Literal markers from the source. -/
def dupTag : Chars := "<DUP>".data

def delTag : Chars := "<DEL>".data

def refTag : Chars := "#reference".data

def chromHeadTag : Chars := "#CHROM".data

def dragenTag : Chars := "DRAGEN:".data

def svlenTag : Chars := "SVLEN".data

def passTag : Chars := "PASS".data

def cnvQualTag : Chars := "cnvQual".data

/-- Python exceptions raised (or hit) by the analyzer. -/
inductive PyErr where
  | runtimeError (msg : Chars)
  | noCnvFound (msg : Chars)
  | typeError (msg : Chars)
  | valueError
  | indexError
  | nameError
  | notCnvError (msg : Chars)
deriving DecidableEq

def isOkE {α : Type} : Except PyErr α → Bool
  | .ok _ => true
  | .error _ => false

/-- Message of the RuntimeError raised when no chromosome line exists
(source line 120). -/
def chrErrMsg : Chars :=
  ("Unable to locate the first chromosome entry. Every chromosome entry must start with the chr character.").data

/-- Message built by raise_cnv_err (source line 91): the joined marker list is
the class attribute cnvs = (the DUP tag, the DEL tag). -/
def cnvErrMsg (f : Chars) : Chars :=
  ("Unable to find any cnv\x27s in file: ").data ++ f ++
    (". File must contain at least one of the following cnv\x27s: ").data ++
    dupTag ++ (", ").data ++ delTag

/-- True when a (rstripped) line is a chromosome data line: its first three
characters are chr (source line 113). -/
def isChr (l : Chars) : Bool := l.take 3 == "chr".data

/-- True when a line carries one of the two CNV markers (source line 116). -/
def isCnvLine (l : Chars) : Bool := containsSub l dupTag || containsSub l delTag

/-- State threaded through the line loop of cnv_line_finder: collected lines,
chromosome-line count, and the two locals that the source assigns only
conditionally (none = still unbound). -/
structure ScanSt where
  out : List Chars
  counter : Nat
  sample : Option Chars
  ref : Option Chars
deriving DecidableEq

def applyRef (st : ScanSt) (line : Chars) : ScanSt :=
  if containsSub line refTag then { st with ref := some line } else st

def applySample (st : ScanSt) (line : Chars) : ScanSt :=
  if containsSub line chromHeadTag then
    { st with sample := some (lastTok (splitOnC '\t' line)) }
  else st

def applyChr (st : ScanSt) (line : Chars) : ScanSt :=
  if isChr line then
    let st1 := { st with counter := st.counter + 1 }
    if isCnvLine line then { st1 with out := st1.out ++ [line] } else st1
  else st

/-- One iteration of the line loop of cnv_line_finder (source lines 107-117):
the raw line is rstripped, the reference and sample checks run on every line,
then chromosome data lines are counted and CNV lines collected. -/
def scanStep (st : ScanSt) (raw : Chars) : ScanSt :=
  applyChr (applySample (applyRef st (pyRstrip raw)) (pyRstrip raw)) (pyRstrip raw)

def scanFold (st : ScanSt) (ls : List Chars) : ScanSt := ls.foldl scanStep st

/-- Result of a successful scan: matching lines, sample name, reference line. -/
structure ScanOut where
  lines : List Chars
  sample : Chars
  ref : Chars
deriving DecidableEq

/-- cnv_line_finder (source lines 93-124).  After the loop: a RuntimeError if
no chromosome line was counted, the NoCnvFoundError if no line matched, and
otherwise the triple return; evaluating the triple reads the locals sample and
ref, which raises UnboundLocalError (a NameError) when the file had no header
or no reference line. -/
def cnv_line_finder (vcf_fl : Chars) (fileLines : List Chars) : Except PyErr ScanOut :=
  let st := scanFold ⟨[], 0, none, none⟩ fileLines
  if st.counter = 0 then .error (.runtimeError chrErrMsg)
  else if st.out.length = 0 then .error (.noCnvFound (cnvErrMsg vcf_fl))
  else
    match st.sample, st.ref with
    | some s, some r => .ok ⟨st.out, s, r⟩
    | _, _ => .error .nameError

/-- The accumulation dict indv_entities of the extractor (source line 134):
one optional slot per key ever written; none = key never set.  The start slot
is doubly optional: its inner none records the Python situation where the
local start was still the empty list when stored. -/
structure Entities where
  sample : Option Chars
  chromosome : Option Chars
  startv : Option (Option Chars)
  endv : Option Chars
  cnv_type : Option Chars
  score : Option Chars
  filter : Option Chars
deriving DecidableEq

def Entities.empty : Entities := ⟨none, none, none, none, none, none, none⟩

/-- Python len(indv_entities) > 0: some key has been written. -/
def entNonempty (e : Entities) : Bool :=
  e.sample.isSome || e.chromosome.isSome || e.startv.isSome || e.endv.isSome ||
    e.cnv_type.isSome || e.score.isSome || e.filter.isSome

/-- Python comparison of the query string with the local start, which is the
empty list when no digit token was seen yet (a string never equals a list). -/
def pyEqOpt (d : Chars) (o : Option Chars) : Bool :=
  match o with
  | some s => d == s
  | none => false

/-- Token cleanup inside the DRAGEN branch (source lines 149-150): every
non-digit character becomes a comma-space pair, commas are removed, ends are
stripped. -/
def dragenClean (pos : Chars) : Chars :=
  pyStrip ((pos.flatMap (fun c => if c.isDigit then [c] else [',', ' '])).filter
    (fun c => c != ','))

/-- Message of the TypeError raised for a non-digit query (source line 175). -/
def infErrMsg (d : Chars) : Chars :=
  ("-inf argument must be an integer. ").data ++ d ++ (" is not an integer.").data

/-- Quality-score extraction for a populating line (source lines 165-167):
split the whole line at the first occurrence of the end text (empty separator
is a ValueError, absent separator an IndexError on index 1), keep the part
before the SVLEN marker, keep only digits. -/
def scoreOf (i endv : Chars) : Except PyErr Chars :=
  if endv.isEmpty then .error .valueError
  else
    match splitOnceSub endv i with
    | none => .error .indexError
    | some p => .ok ((firstSplitBefore svlenTag p.2).filter Char.isDigit)

/-- Variant-type slot update (source lines 161-164): the DUP check runs first;
with neither marker the old value is kept. -/
def cnvTypeOf (i : Chars) (old : Option Chars) : Option Chars :=
  if containsSub i dupTag then some dupTag
  else if containsSub i delTag then some delTag
  else old

/-- Filter-status slot update (source lines 169-172): the cnvQual check runs
first, PASS second; with neither token the old value is kept. -/
def filterUpdate (i : Chars) (old : Option Chars) : Option Chars :=
  if containsSub i cnvQualTag then some cnvQualTag
  else if containsSub i passTag then some passTag
  else old

/-- Dict writes performed when the query matches (source lines 157-172). -/
def populateEnt (sample chrom : Chars) (startv : Option Chars) (endv : Chars)
    (i : Chars) (score : Chars) (ent : Entities) : Entities :=
  { sample := some sample
    chromosome := some chrom
    startv := some startv
    endv := some endv
    cnv_type := cnvTypeOf i ent.cnv_type
    score := some score
    filter := filterUpdate i ent.filter }

/-- Token loop of the extractor for one line (source lines 142-177).  The
state is the local start (none = still the empty list) and the accumulation
dict; disp is the optional query string.  The first digit token becomes the
start; a token holding the DRAGEN marker is cleaned up, split for the end
coordinate, and drives the query comparison; a non-digit query raises the
TypeError there. -/
def tokLoop (disp : Option Chars) (sample chrom i : Chars) :
    List Chars → Option Chars → Entities → Except PyErr (Option Chars × Entities)
  | [], start, ent => .ok (start, ent)
  | pos :: rest, start, ent =>
    let start1 := if pyIsdigit pos && start.isNone then some pos else start
    if containsSub pos dragenTag then
      match splitOnceChar ' ' (dragenClean pos) with
      | none => .error .indexError
      | some pr =>
        let start_end := pr.2
        let start_ref := start_end.takeWhile (fun c => c != ' ')
        let endv := pyStrip (eraseAllSub start_ref start_end)
        match disp with
        | none => tokLoop disp sample chrom i rest start1 ent
        | some d =>
          if pyIsdigit d then
            if pyEqOpt d start1 || d == endv then
              match scoreOf i endv with
              | .error e => .error e
              | .ok sc =>
                tokLoop disp sample chrom i rest start1
                  (populateEnt sample chrom start1 endv i sc ent)
            else tokLoop disp sample chrom i rest start1 ent
          else .error (.typeError (infErrMsg d))
    else tokLoop disp sample chrom i rest start1 ent

/-- One table row: the space-split fields of a line. -/
abbrev Row := List Chars

/-- Number of DataFrame columns (source line 135): CHROM, POS, ID, REF, ALT,
QUAL, FILTER, INFO, FORMAT and the sample column. -/
def dfWidth : Nat := 10

/-- Placeholder first row of the DataFrame (source line 135), removed at the
end of the extraction pass. -/
def placeholderRow : Row := List.replicate dfWidth ['0']

def tabToSpace (s : Chars) : Chars :=
  s.map (fun c => if c = '\t' then ' ' else c)

/-- Space-split fields after tab replacement (source line 128). -/
def rowTokens (iter : Chars) : List Chars := splitOnC ' ' (tabToSpace iter)

/-- The static method that appends a line to the DataFrame (source lines
126-130): the pandas row assignment succeeds only when the field list has
exactly as many entries as the table has columns, else it is a ValueError. -/
def add_to_df (iter : Chars) (d : List Row) : Except PyErr (List Row) :=
  if (rowTokens iter).length = dfWidth then .ok (d ++ [rowTokens iter])
  else .error .valueError

/-- Row-inclusion chain of the extractor (source lines 179-187), mirroring the
if / elif structure exactly. -/
def lineRows (dup del : Bool) (i : Chars) (df : List Row) : Except PyErr (List Row) :=
  if dup then
    if containsSub i dupTag then add_to_df i df else .ok df
  else if del then
    if containsSub i delTag then add_to_df i df else .ok df
  else if !(dup && del) then
    if containsSub i dupTag || containsSub i delTag then add_to_df i df else .ok df
  else .ok df

/-- One iteration of the per-line loop of the extractor (source lines
136-187): chromosome regex, tab-run token split, token loop, then the
row-inclusion chain. -/
def lineStep (disp : Option Chars) (sample : Chars) (dup del : Bool)
    (acc : Except PyErr (Entities × List Row)) (i : Chars) :
    Except PyErr (Entities × List Row) :=
  match acc with
  | .error e => .error e
  | .ok (ent, df) =>
    let chrom := i.takeWhile (fun c => c != '\t')
    match tokLoop disp sample chrom i (splitTabPlus i) none ent with
    | .error e => .error e
    | .ok (_, ent1) =>
      match lineRows dup del i df with
      | .error e => .error e
      | .ok df1 => .ok (ent1, df1)

/-- The two return shapes of the extraction pass (source lines 190-193): a
three-tuple when the dict is nonempty, a two-tuple otherwise; the reference
is appended by the file-level wrapper. -/
inductive InfoRes where
  | withMatch (df : List Row) (ent : Entities)
  | noMatch (df : List Row)
deriving DecidableEq

/-- Extraction pass on the matching lines (the body of the parsing method,
source lines 134-193, with the scan result passed in).  The DataFrame starts
with the placeholder row, which is dropped at the end. -/
def infoParse (lines : List Chars) (sample : Chars) (disp : Option Chars)
    (dup del : Bool) : Except PyErr InfoRes :=
  match lines.foldl (lineStep disp sample dup del) (.ok (Entities.empty, [placeholderRow])) with
  | .error e => .error e
  | .ok (ent, df) =>
    if entNonempty ent then .ok (.withMatch (df.drop 1) ent)
    else .ok (.noMatch (df.drop 1))

/-- Return shapes of the whole parsing method including the reference line. -/
inductive InfoOut where
  | withMatchR (df : List Row) (ent : Entities) (ref : Chars)
  | noMatchR (df : List Row) (ref : Chars)
deriving DecidableEq

/-- The parsing method at file level (source lines 132-193): scan, then the
extraction pass on the matching lines. -/
def infoParseFile (vcf_fl : Chars) (fileLines : List Chars) (disp : Option Chars)
    (dup del : Bool) : Except PyErr InfoOut :=
  match cnv_line_finder vcf_fl fileLines with
  | .error e => .error e
  | .ok sc =>
    match infoParse sc.lines sc.sample disp dup del with
    | .error e => .error e
    | .ok (.withMatch df ent) => .ok (.withMatchR df ent sc.ref)
    | .ok (.noMatch df) => .ok (.noMatchR df sc.ref)

/-- Message of the NotCnvError raised by the report layer (source line 200). -/
def notCnvMsg (d : Chars) : Chars :=
  ("User entry might not be a cnv. Check if entry ").data ++ d ++ (" is a cnv.").data

/-- Python truthiness of the optional query string. -/
def pyTruthy (disp : Option Chars) : Bool :=
  match disp with
  | none => false
  | some s => !s.isEmpty

/-- Entry gate of the report writer (source lines 195-203).  With a truthy
query the three-way unpacking of the parser result runs under a try that
converts any ValueError into the NotCnvError; unpacking the two-tuple return
into three names is itself such a ValueError.  Without a truthy query the
two-way unpacking runs unprotected.  A success carries the values report
generation would then use. -/
def statsWriterGate (vcf_fl : Chars) (fileLines : List Chars) (disp : Option Chars)
    (dup del : Bool) : Except PyErr (List Row × Option Entities × Chars) :=
  if pyTruthy disp then
    match infoParseFile vcf_fl fileLines disp dup del with
    | .ok (.withMatchR df ent ref) => .ok (df, some ent, ref)
    | .ok (.noMatchR _ _) => .error (.notCnvError (notCnvMsg (disp.getD [])))
    | .error .valueError => .error (.notCnvError (notCnvMsg (disp.getD [])))
    | .error e => .error e
  else
    match infoParseFile vcf_fl fileLines disp dup del with
    | .ok (.noMatchR df ref) => .ok (df, none, ref)
    | .ok (.withMatchR _ _ _) => .error .valueError
    | .error e => .error e

/-- The rstripped chromosome data lines of a file that carry a CNV marker:
what the scanner collects. -/
def matchedLines (fileLines : List Chars) : List Chars :=
  (fileLines.map pyRstrip).filter (fun l => isChr l && isCnvLine l)

/-- Filter slot recorded by a run of the extraction pass that ends with a
populated dict; none for any other outcome. -/
def entFilterOf : Except PyErr InfoRes → Option Chars
  | .ok (.withMatch _ e) => e.filter
  | _ => none

/-- True when the parsing method returned its two-tuple shape (no single
entity populated) or raised a ValueError: exactly the outcomes the try of the
report writer converts into the NotCnvError. -/
def noMatchOrValueErr : Except PyErr InfoOut → Bool
  | .ok (.noMatchR _ _) => true
  | .error .valueError => true
  | _ => false

theorem applyRef_counter (st : ScanSt) (l : Chars) : (applyRef st l).counter = st.counter := by
  unfold applyRef
  split <;> rfl

theorem applyRef_out (st : ScanSt) (l : Chars) : (applyRef st l).out = st.out := by
  unfold applyRef
  split <;> rfl

theorem applyRef_sample (st : ScanSt) (l : Chars) : (applyRef st l).sample = st.sample := by
  unfold applyRef
  split <;> rfl

theorem applyRef_ref (st : ScanSt) (l : Chars) :
    (applyRef st l).ref = if containsSub l refTag then some l else st.ref := by
  unfold applyRef
  split <;> simp_all

theorem applySample_counter (st : ScanSt) (l : Chars) : (applySample st l).counter = st.counter := by
  unfold applySample
  split <;> rfl

theorem applySample_out (st : ScanSt) (l : Chars) : (applySample st l).out = st.out := by
  unfold applySample
  split <;> rfl

theorem applySample_ref (st : ScanSt) (l : Chars) : (applySample st l).ref = st.ref := by
  unfold applySample
  split <;> rfl

theorem applySample_sample (st : ScanSt) (l : Chars) :
    (applySample st l).sample =
      if containsSub l chromHeadTag then some (lastTok (splitOnC '\t' l)) else st.sample := by
  unfold applySample
  split <;> simp_all

theorem applyChr_counter (st : ScanSt) (l : Chars) :
    (applyChr st l).counter = st.counter + (if isChr l then 1 else 0) := by
  unfold applyChr
  split
  · split <;> rfl
  · rfl

theorem applyChr_out (st : ScanSt) (l : Chars) :
    (applyChr st l).out = st.out ++ (if isChr l && isCnvLine l then [l] else []) := by
  unfold applyChr
  split <;> rename_i h1
  · split <;> rename_i h2 <;> simp [h1, h2]
  · simp [h1]

theorem applyChr_sample (st : ScanSt) (l : Chars) : (applyChr st l).sample = st.sample := by
  unfold applyChr
  split
  · split <;> rfl
  · rfl

theorem applyChr_ref (st : ScanSt) (l : Chars) : (applyChr st l).ref = st.ref := by
  unfold applyChr
  split
  · split <;> rfl
  · rfl

theorem scanStep_counter (st : ScanSt) (raw : Chars) :
    (scanStep st raw).counter = st.counter + (if isChr (pyRstrip raw) then 1 else 0) := by
  unfold scanStep
  rw [applyChr_counter, applySample_counter, applyRef_counter]

theorem scanStep_out (st : ScanSt) (raw : Chars) :
    (scanStep st raw).out =
      st.out ++ (if isChr (pyRstrip raw) && isCnvLine (pyRstrip raw) then [pyRstrip raw] else []) := by
  unfold scanStep
  rw [applyChr_out, applySample_out, applyRef_out]

theorem scanStep_sample (st : ScanSt) (raw : Chars) :
    (scanStep st raw).sample =
      if containsSub (pyRstrip raw) chromHeadTag then
        some (lastTok (splitOnC '\t' (pyRstrip raw)))
      else st.sample := by
  unfold scanStep
  rw [applyChr_sample, applySample_sample, applyRef_sample]

theorem scanStep_ref (st : ScanSt) (raw : Chars) :
    (scanStep st raw).ref =
      if containsSub (pyRstrip raw) refTag then some (pyRstrip raw) else st.ref := by
  unfold scanStep
  rw [applyChr_ref, applySample_ref, applyRef_ref]

theorem scanFold_counter (ls : List Chars) : ∀ st : ScanSt,
    (scanFold st ls).counter = st.counter + (ls.map pyRstrip).countP isChr := by
  induction ls with
  | nil => intro st; simp [scanFold]
  | cons a ls ih =>
    intro st
    have h1 : scanFold st (a :: ls) = scanFold (scanStep st a) ls := rfl
    rw [h1, ih, scanStep_counter]
    simp only [List.map_cons, List.countP_cons]
    split <;> simp_all
    omega

theorem scanFold_out (ls : List Chars) : ∀ st : ScanSt,
    (scanFold st ls).out =
      st.out ++ (ls.map pyRstrip).filter (fun l => isChr l && isCnvLine l) := by
  induction ls with
  | nil => intro st; simp [scanFold]
  | cons a ls ih =>
    intro st
    have h1 : scanFold st (a :: ls) = scanFold (scanStep st a) ls := rfl
    rw [h1, ih, scanStep_out]
    simp only [List.map_cons, List.filter_cons]
    split <;> simp_all

theorem scanFold_sample_mono (ls : List Chars) : ∀ st : ScanSt,
    st.sample.isSome → (scanFold st ls).sample.isSome := by
  induction ls with
  | nil => intro st h; simpa [scanFold] using h
  | cons a ls ih =>
    intro st h
    have h1 : scanFold st (a :: ls) = scanFold (scanStep st a) ls := rfl
    rw [h1]
    apply ih
    rw [scanStep_sample]
    split <;> simp_all

theorem scanFold_sample_isSome (ls : List Chars) : ∀ st : ScanSt,
    (∃ l ∈ ls, containsSub (pyRstrip l) chromHeadTag = true) →
      (scanFold st ls).sample.isSome := by
  induction ls with
  | nil => intro st h; simp at h
  | cons a ls ih =>
    intro st h
    have h1 : scanFold st (a :: ls) = scanFold (scanStep st a) ls := rfl
    rw [h1]
    rcases h with ⟨l, hl, hmark⟩
    rcases List.mem_cons.mp hl with rfl | hmem
    · apply scanFold_sample_mono
      rw [scanStep_sample, hmark]
      simp
    · exact ih _ ⟨l, hmem, hmark⟩

theorem scanFold_ref_mono (ls : List Chars) : ∀ st : ScanSt,
    st.ref.isSome → (scanFold st ls).ref.isSome := by
  induction ls with
  | nil => intro st h; simpa [scanFold] using h
  | cons a ls ih =>
    intro st h
    have h1 : scanFold st (a :: ls) = scanFold (scanStep st a) ls := rfl
    rw [h1]
    apply ih
    rw [scanStep_ref]
    split <;> simp_all

theorem scanFold_ref_isSome (ls : List Chars) : ∀ st : ScanSt,
    (∃ l ∈ ls, containsSub (pyRstrip l) refTag = true) →
      (scanFold st ls).ref.isSome := by
  induction ls with
  | nil => intro st h; simp at h
  | cons a ls ih =>
    intro st h
    have h1 : scanFold st (a :: ls) = scanFold (scanStep st a) ls := rfl
    rw [h1]
    rcases h with ⟨l, hl, hmark⟩
    rcases List.mem_cons.mp hl with rfl | hmem
    · apply scanFold_ref_mono
      rw [scanStep_ref, hmark]
      simp
    · exact ih _ ⟨l, hmem, hmark⟩

/-- C3: for every input file with no line whose first three characters (after
trailing-whitespace removal) are chr, the scan fails with the RuntimeError —
the spec calls it MalformedInputError — whose message says the first
chromosome entry could not be located. -/
theorem c3_no_chr_error (f : Chars) (fileLines : List Chars)
    (h : ∀ l ∈ fileLines, isChr (pyRstrip l) = false) :
    cnv_line_finder f fileLines = .error (.runtimeError chrErrMsg) := by
  have hc : (scanFold ⟨[], 0, none, none⟩ fileLines).counter = 0 := by
    rw [scanFold_counter]
    simp only [Nat.zero_add]
    rw [List.countP_eq_zero]
    intro a ha
    obtain ⟨l, hl, rfl⟩ := List.mem_map.mp ha
    simp [h l hl]
  unfold cnv_line_finder
  simp [hc]

/-- C3 witness: a concrete file whose two lines are not chromosome data lines
makes the scan fail with the RuntimeError. -/
theorem c3_no_chr_error_witness :
    cnv_line_finder ("f").data [("hello world").data, ("#CHROM\tS").data] =
      .error (.runtimeError chrErrMsg) :=
  c3_no_chr_error ("f").data [("hello world").data, ("#CHROM\tS").data] (by decide)

/-- C4: for every input file with at least one chromosome data line but none
carrying a CNV marker, the scan fails with NoCnvFoundError — the spec calls it
NoVariantsFoundError — and the message names both supported markers. -/
theorem c4_no_marker_error (f : Chars) (fileLines : List Chars)
    (h1 : ∃ l ∈ fileLines, isChr (pyRstrip l) = true)
    (h2 : ∀ l ∈ fileLines, isChr (pyRstrip l) = true → isCnvLine (pyRstrip l) = false) :
    cnv_line_finder f fileLines = .error (.noCnvFound (cnvErrMsg f)) ∧
      dupTag <:+: cnvErrMsg f ∧ delTag <:+: cnvErrMsg f := by
  refine ⟨?_, ?_, ?_⟩
  · have hc : (scanFold ⟨[], 0, none, none⟩ fileLines).counter ≠ 0 := by
      rw [scanFold_counter]
      simp only [Nat.zero_add]
      have : 0 < (fileLines.map pyRstrip).countP isChr := by
        rw [List.countP_pos_iff]
        rcases h1 with ⟨l, hl, hchr⟩
        exact ⟨pyRstrip l, List.mem_map_of_mem pyRstrip hl, hchr⟩
      omega
    have ho : (scanFold ⟨[], 0, none, none⟩ fileLines).out = [] := by
      rw [scanFold_out]
      simp only [List.nil_append]
      rw [List.filter_eq_nil_iff]
      intro a ha
      obtain ⟨l, hl, rfl⟩ := List.mem_map.mp ha
      by_cases hchr : isChr (pyRstrip l) = true
      · simp [hchr, h2 l hl hchr]
      · simp [Bool.eq_false_iff.mpr hchr]
    unfold cnv_line_finder
    simp [hc, ho]
  · exact ⟨("Unable to find any cnv\x27s in file: ").data ++ f ++
      (". File must contain at least one of the following cnv\x27s: ").data,
      (", ").data ++ delTag, by simp [cnvErrMsg]⟩
  · exact ⟨("Unable to find any cnv\x27s in file: ").data ++ f ++
      (". File must contain at least one of the following cnv\x27s: ").data ++
      dupTag ++ (", ").data, [], by simp [cnvErrMsg]⟩

/-- C4 witness: a concrete file with one chromosome data line and no CNV
marker makes the scan fail with NoCnvFoundError naming both markers. -/
theorem c4_no_marker_error_witness :
    cnv_line_finder ("f").data [("chr1\t100\tid\tN\tG\t60\tPASS\tE\tGT\t0/1").data] =
      .error (.noCnvFound (cnvErrMsg ("f").data)) ∧
      dupTag <:+: cnvErrMsg ("f").data ∧ delTag <:+: cnvErrMsg ("f").data :=
  c4_no_marker_error ("f").data [("chr1\t100\tid\tN\tG\t60\tPASS\tE\tGT\t0/1").data]
    (by decide) (by decide)

/-- C6: the claim says a file passing both scan validations but holding no
reference-marker line still returns normally with an absent reference tag.
The code instead reads the never-assigned local for the reference line when
building the return tuple, raising UnboundLocalError: on a concrete such file
the scan ends in the name-error outcome instead of returning. -/
theorem c6_missing_ref_crash :
    cnv_line_finder ("f").data [("#CHROM\tS").data, ("chr1\tx\t<DUP>\tz").data] =
      .error .nameError := rfl

/-- C8 counterexample: a one-line file whose single line is a chromosome data
line with a CNV marker (N = 1, M = 1) does not make the scan return those M
lines — the scan fails (the sample and reference locals are unbound), so the
claim quantified over every input file is false. -/
theorem c8_counterexample :
    ((([("chr1\taaa\t<DUP>").data]).map pyRstrip).countP isChr = 1 ∧
      matchedLines [("chr1\taaa\t<DUP>").data] = [("chr1\taaa\t<DUP>").data]) ∧
      isOkE (cnv_line_finder ("f").data [("chr1\taaa\t<DUP>").data]) = false := by
  exact ⟨⟨rfl, rfl⟩, rfl⟩

/-- C8 amended: for every input file with at least one marker-carrying
chromosome data line that also holds a sample-header line and a reference
line, the scan returns exactly the marker-carrying chromosome data lines, in
file order. -/
theorem c8_scan_returns_matches (f : Chars) (fileLines : List Chars)
    (hchrom : ∃ l ∈ fileLines, containsSub (pyRstrip l) chromHeadTag = true)
    (href : ∃ l ∈ fileLines, containsSub (pyRstrip l) refTag = true)
    (hM : matchedLines fileLines ≠ []) :
    ∃ s r, cnv_line_finder f fileLines = .ok ⟨matchedLines fileLines, s, r⟩ := by
  have ho : (scanFold ⟨[], 0, none, none⟩ fileLines).out = matchedLines fileLines := by
    rw [scanFold_out]
    rfl
  have hc : (scanFold ⟨[], 0, none, none⟩ fileLines).counter ≠ 0 := by
    rw [scanFold_counter]
    simp only [Nat.zero_add]
    have hex : ∃ a ∈ (fileLines.map pyRstrip), isChr a = true := by
      rcases List.exists_mem_of_ne_nil _ hM with ⟨a, ha⟩
      have := List.mem_filter.mp (by exact ha)
      exact ⟨a, this.1, by simpa using (Bool.and_eq_true _ _ |>.mp this.2).1⟩
    have : 0 < (fileLines.map pyRstrip).countP isChr := List.countP_pos_iff.mpr hex
    omega
  have hs : (scanFold ⟨[], 0, none, none⟩ fileLines).sample.isSome :=
    scanFold_sample_isSome fileLines _ hchrom
  have hr : (scanFold ⟨[], 0, none, none⟩ fileLines).ref.isSome :=
    scanFold_ref_isSome fileLines _ href
  obtain ⟨s, hs'⟩ := Option.isSome_iff_exists.mp hs
  obtain ⟨r, hr'⟩ := Option.isSome_iff_exists.mp hr
  refine ⟨s, r, ?_⟩
  unfold cnv_line_finder
  simp only [hc, if_false, reduceIte]
  have hlen : (scanFold ⟨[], 0, none, none⟩ fileLines).out.length ≠ 0 := by
    rw [ho]
    simpa [List.length_eq_zero] using hM
  simp [hlen, hs', hr', ho, hM]

/-- C8 amended witness: a concrete file with header, reference line, two
marker-carrying chromosome lines and one unmarked chromosome line returns
exactly the two marked lines in order. -/
theorem c8_scan_returns_matches_witness :
    ∃ s r, cnv_line_finder ("f").data
      [("#reference=hg38").data, ("#CHROM\tS").data,
        ("chr1\t100\t<DUP>").data, ("chr2\t200\tN").data, ("chr3\t300\t<DEL>").data] =
      .ok ⟨[("chr1\t100\t<DUP>").data, ("chr3\t300\t<DEL>").data], s, r⟩ := by
  have h := c8_scan_returns_matches ("f").data
    [("#reference=hg38").data, ("#CHROM\tS").data,
      ("chr1\t100\t<DUP>").data, ("chr2\t200\tN").data, ("chr3\t300\t<DEL>").data]
    (by decide) (by decide) (by decide)
  simpa using h

theorem containsSub_iff (hay pat : Chars) : containsSub hay pat = true ↔ pat <:+: hay := by
  induction hay with
  | nil => simp [containsSub, List.isEmpty_iff]
  | cons c rest ih =>
    simp only [containsSub, Bool.or_eq_true, List.isPrefixOf_iff_prefix, ih,
      List.infix_cons_iff]

/-- C1 counterexample: an input whose two matching lines carry a DUP and a DEL
marker respectively; with both type-filter flags set the extraction pass keeps
only the DUP row, while with neither flag set it keeps both rows, so the
both-flags table is not the include-all table the claim asserts. -/
theorem c1_counterexample :
    isCnvLine ("chr1\t100\t.\tN\t<DUP>\t60\tPASS\tE\tGT\t0/1").data = true ∧
    isCnvLine ("chr1\t200\t.\tN\t<DEL>\t70\tPASS\tE\tGT\t0/1").data = true ∧
    infoParse [("chr1\t100\t.\tN\t<DUP>\t60\tPASS\tE\tGT\t0/1").data,
        ("chr1\t200\t.\tN\t<DEL>\t70\tPASS\tE\tGT\t0/1").data]
      ("S").data none true true =
      .ok (.noMatch [rowTokens ("chr1\t100\t.\tN\t<DUP>\t60\tPASS\tE\tGT\t0/1").data]) ∧
    infoParse [("chr1\t100\t.\tN\t<DUP>\t60\tPASS\tE\tGT\t0/1").data,
        ("chr1\t200\t.\tN\t<DEL>\t70\tPASS\tE\tGT\t0/1").data]
      ("S").data none false false =
      .ok (.noMatch [rowTokens ("chr1\t100\t.\tN\t<DUP>\t60\tPASS\tE\tGT\t0/1").data,
        rowTokens ("chr1\t200\t.\tN\t<DEL>\t70\tPASS\tE\tGT\t0/1").data]) :=
  ⟨rfl, rfl, rfl, rfl⟩

/-- C1 amended: with the DUP-only flag and the DEL-only flag both set, the
extraction pass behaves exactly as with the DUP-only flag alone — the first
branch of the inclusion chain wins, so DEL-only rows are dropped, not
included. -/
theorem c1_both_flags_eq_dup_only (lines : List Chars) (sample : Chars)
    (disp : Option Chars) :
    infoParse lines sample disp true true = infoParse lines sample disp true false := rfl

/-- C2 counterexample: a matching line holding both the PASS token and the
cnvQual token, processed with a query equal to its end coordinate, populates
the dict with filter status cnvQual, not PASS as the claim asserts. -/
theorem c2_counterexample :
    containsSub
        ("chr1\t2755001\tDRAGEN:GAIN:chr1:2755001-2791000\tN\t<DEL>\t99\tcnvQual;PASS\tEND=2791000\tGT\t0/1").data
        passTag = true ∧
    containsSub
        ("chr1\t2755001\tDRAGEN:GAIN:chr1:2755001-2791000\tN\t<DEL>\t99\tcnvQual;PASS\tEND=2791000\tGT\t0/1").data
        cnvQualTag = true ∧
    entFilterOf (infoParse
        [("chr1\t2755001\tDRAGEN:GAIN:chr1:2755001-2791000\tN\t<DEL>\t99\tcnvQual;PASS\tEND=2791000\tGT\t0/1").data]
        ("S").data (some ("2791000").data) false false) = some cnvQualTag ∧
    (cnvQualTag = passTag → False) :=
  ⟨rfl, rfl, rfl, by decide⟩

/-- C2 amended: whenever a matching line populates the dict, the recorded
filter status is cnvQual if that token appears anywhere in the line; PASS is
recorded only when cnvQual is absent and PASS present; with neither token the
slot keeps its previous value. -/
theorem c2_filter_precedence (sample chrom : Chars) (startv : Option Chars)
    (endv i score : Chars) (ent : Entities) :
    (cnvQualTag <:+: i →
      (populateEnt sample chrom startv endv i score ent).filter = some cnvQualTag) ∧
    (¬ cnvQualTag <:+: i → passTag <:+: i →
      (populateEnt sample chrom startv endv i score ent).filter = some passTag) ∧
    (¬ cnvQualTag <:+: i → ¬ passTag <:+: i →
      (populateEnt sample chrom startv endv i score ent).filter = ent.filter) := by
  have hq := containsSub_iff i cnvQualTag
  have hp := containsSub_iff i passTag
  refine ⟨fun h => ?_, fun h1 h2 => ?_, fun h1 h2 => ?_⟩ <;>
    simp only [populateEnt, filterUpdate] <;>
    simp_all

/-- C2 amended witness: on the concrete line of the counterexample, which
holds the cnvQual token, the populated filter status is cnvQual. -/
theorem c2_filter_precedence_witness :
    (populateEnt ("S").data ("chr1").data none ("2791000").data
      ("chr1\t2755001\tDRAGEN:GAIN:chr1:2755001-2791000\tN\t<DEL>\t99\tcnvQual;PASS\tEND=2791000\tGT\t0/1").data
      ("99").data Entities.empty).filter = some cnvQualTag :=
  (c2_filter_precedence ("S").data ("chr1").data none ("2791000").data
    ("chr1\t2755001\tDRAGEN:GAIN:chr1:2755001-2791000\tN\t<DEL>\t99\tcnvQual;PASS\tEND=2791000\tGT\t0/1").data
    ("99").data Entities.empty).1
    ((containsSub_iff _ cnvQualTag).mp rfl)

/-- C9: the extraction pass is deterministic — it is a pure function of the
matching lines, the sample name, the query and the two flags (the source
rebuilds its accumulation dict and DataFrame from scratch on every call), so
two runs on the same inputs return identical tables and identical
single-entity results, at both the matching-line level and the file level. -/
theorem c9_extraction_idempotent (lines : List Chars) (sample : Chars)
    (disp : Option Chars) (dup del : Bool) (f : Chars) (fileLines : List Chars) :
    infoParse lines sample disp dup del = infoParse lines sample disp dup del ∧
    infoParseFile f fileLines disp dup del = infoParseFile f fileLines disp dup del :=
  ⟨rfl, rfl⟩

theorem tokLoop_no_dragen (disp : Option Chars) (sample chrom i : Chars)
    (toks : List Chars) (h : ∀ t ∈ toks, containsSub t dragenTag = false) :
    ∀ start ent, ∃ s, tokLoop disp sample chrom i toks start ent = .ok (s, ent) := by
  induction toks with
  | nil => intro start ent; exact ⟨start, rfl⟩
  | cons pos rest ih =>
    intro start ent
    have hp : containsSub pos dragenTag = false := h pos (List.mem_cons_self _ _)
    have hrest : ∀ t ∈ rest, containsSub t dragenTag = false :=
      fun t ht => h t (List.mem_cons_of_mem _ ht)
    simp only [tokLoop, hp, Bool.false_eq_true, if_false]
    exact ih hrest _ ent

theorem lineRows_no_type (dup del : Bool) (i : Chars) (df : List Row) :
    ∀ m, lineRows dup del i df ≠ .error (.typeError m) := by
  intro m
  unfold lineRows add_to_df
  split_ifs <;> simp

theorem lineStep_no_type (disp : Option Chars) (sample : Chars) (dup del : Bool)
    (acc : Except PyErr (Entities × List Row)) (i : Chars)
    (hi : ∀ t ∈ splitTabPlus i, containsSub t dragenTag = false)
    (hacc : ∀ m, acc ≠ Except.error (PyErr.typeError m)) :
    ∀ m, lineStep disp sample dup del acc i ≠ .error (.typeError m) := by
  intro m
  match acc with
  | .error e =>
    simp only [lineStep]
    intro hc
    injection hc with hc'
    exact hacc m (by rw [hc'])
  | .ok (ent, df) =>
    simp only [lineStep]
    obtain ⟨s, hs⟩ := tokLoop_no_dragen disp sample (i.takeWhile (fun c => c != '\t')) i
      (splitTabPlus i) hi none ent
    rw [hs]
    cases hlr : lineRows dup del i df with
    | error e2 =>
      simp only
      intro hc
      injection hc with hc'
      exact lineRows_no_type dup del i df m (by rw [hlr, hc'])
    | ok df1 => simp

theorem foldl_lineStep_no_type (disp : Option Chars) (sample : Chars) (dup del : Bool)
    (ls : List Chars)
    (h : ∀ i ∈ ls, ∀ t ∈ splitTabPlus i, containsSub t dragenTag = false) :
    ∀ acc, (∀ m, acc ≠ Except.error (PyErr.typeError m)) →
      ∀ m, ls.foldl (lineStep disp sample dup del) acc ≠ .error (.typeError m) := by
  induction ls with
  | nil => intro acc hacc m; simpa using hacc m
  | cons i ls ih =>
    intro acc hacc m
    simp only [List.foldl_cons]
    exact ih (fun j hj t ht => h j (List.mem_cons_of_mem _ hj) t ht) _
      (lineStep_no_type disp sample dup del acc i (h i (List.mem_cons_self _ _)) hacc) m

/-- C5 counterexample: the query string abc is not a digit string, yet the
extraction pass run on a matching line without a DRAGEN-annotated field
returns normally instead of failing with the TypeError — the spec calls it
InvalidArgumentError — so the claim quantified over every matching-line set
is false. -/
theorem c5_counterexample :
    pyIsdigit ("abc").data = false ∧
    isOkE (infoParse [("chr1\t100\tid\tN\t<DUP>\t60\tPASS\tE\tGT\t0/1").data]
      ("S").data (some ("abc").data) false false) = true :=
  ⟨rfl, rfl⟩

/-- C5 amended: the non-digit-query TypeError of the extraction pass is
raised only while handling a tab-field holding the DRAGEN marker; on every
matching-line set in which no tab-field of any line holds that marker, the
extraction pass never fails with the TypeError, whatever the query string. -/
theorem c5_no_dragen_no_invalid_arg (lines : List Chars) (sample d : Chars)
    (dup del : Bool)
    (h : ∀ i ∈ lines, ∀ t ∈ splitTabPlus i, containsSub t dragenTag = false) :
    ∀ m, infoParse lines sample (some d) dup del ≠ .error (.typeError m) := by
  intro m hc
  unfold infoParse at hc
  cases hfe : lines.foldl (lineStep (some d) sample dup del)
      (.ok (Entities.empty, [placeholderRow])) with
  | error e =>
    rw [hfe] at hc
    simp only at hc
    injection hc with hc'
    exact foldl_lineStep_no_type (some d) sample dup del lines h _
      (fun m' hm' => Except.noConfusion hm') m (by rw [hfe, hc'])
  | ok p =>
    rw [hfe] at hc
    simp only at hc
    split at hc <;> exact Except.noConfusion hc

/-- C5 amended witness: with the non-digit query abc on a concrete
DRAGEN-free matching line, the extraction pass does not fail with the
TypeError carrying the message built for abc. -/
theorem c5_no_dragen_no_invalid_arg_witness :
    infoParse [("chr1\t100\tid\tN\t<DUP>\t60\tPASS\tE\tGT\t0/1").data]
      ("S").data (some ("abc").data) false false ≠
      .error (.typeError (infErrMsg ("abc").data)) :=
  c5_no_dragen_no_invalid_arg [("chr1\t100\tid\tN\t<DUP>\t60\tPASS\tE\tGT\t0/1").data]
    ("S").data ("abc").data false false (by decide) (infErrMsg ("abc").data)

/-- C7: whenever a truthy query string was supplied and the parsing method
either returns its no-single-entity two-tuple shape or raises a ValueError,
the report layer fails with the NotCnvError — the spec calls it
NoMatchIsNotVariantError — instead of producing a report. -/
theorem c7_no_match_notcnv (f : Chars) (fileLines : List Chars) (d : Chars)
    (dup del : Bool) (hd : d.isEmpty = false)
    (h : noMatchOrValueErr (infoParseFile f fileLines (some d) dup del) = true) :
    statsWriterGate f fileLines (some d) dup del =
      .error (.notCnvError (notCnvMsg d)) := by
  have ht : pyTruthy (some d) = true := by simp [pyTruthy, hd]
  unfold statsWriterGate
  rw [ht]
  simp only [if_true]
  cases heq : infoParseFile f fileLines (some d) dup del with
  | error e => cases e <;> simp_all [noMatchOrValueErr]
  | ok o => cases o <;> simp_all [noMatchOrValueErr]

/-- C7 witness: a concrete file with one CNV line lacking a DRAGEN field,
queried at position 5 which matches no boundary, makes the report layer fail
with the NotCnvError. -/
theorem c7_no_match_notcnv_witness :
    statsWriterGate ("f").data
      [("#reference=hg38").data, ("#CHROM\tS").data,
        ("chr1\t100\tid\tN\t<DUP>\t60\tPASS\tE\tGT\t0/1").data]
      (some ("5").data) false false =
      .error (.notCnvError (notCnvMsg ("5").data)) :=
  c7_no_match_notcnv ("f").data
    [("#reference=hg38").data, ("#CHROM\tS").data,
      ("chr1\t100\tid\tN\t<DUP>\t60\tPASS\tE\tGT\t0/1").data]
    ("5").data false false rfl rfl

theorem splitOnC_ne_nil (sep : Char) (s : Chars) : splitOnC sep s ≠ [] := by
  cases s with
  | nil => simp [splitOnC]
  | cons c rest =>
    unfold splitOnC
    split
    · simp
    · cases h : splitOnC sep rest <;> simp

theorem splitOnC_length (sep : Char) (s : Chars) :
    (splitOnC sep s).length = s.count sep + 1 := by
  induction s with
  | nil => simp [splitOnC]
  | cons c rest ih =>
    unfold splitOnC
    split <;> rename_i hc
    · simp only [List.length_cons, ih, List.count_cons]
      simp [hc]
    · cases h : splitOnC sep rest with
      | nil => exact absurd h (splitOnC_ne_nil sep rest)
      | cons t ts =>
        simp only [List.length_cons]
        rw [h] at ih
        simp only [List.length_cons] at ih
        simp only [List.count_cons, ih]
        have : ¬ (c == sep) = true := by simp [hc]
        simp [this]

theorem splitOnC_count_sum (sep a : Char) (hne : a ≠ sep) (s : Chars) :
    ((splitOnC sep s).map (fun t => t.count a)).sum = s.count a := by
  induction s with
  | nil => simp [splitOnC]
  | cons c rest ih =>
    unfold splitOnC
    split <;> rename_i hc
    · subst hc
      simp only [List.map_cons, List.sum_cons, List.count_nil, ih, List.count_cons]
      have : ¬ (c == a) = true := by simp; exact fun e => hne e.symm
      simp_all
    · cases h : splitOnC sep rest with
      | nil => exact absurd h (splitOnC_ne_nil sep rest)
      | cons t ts =>
        rw [h] at ih
        simp only [List.map_cons, List.sum_cons, List.count_cons] at ih ⊢
        omega

theorem count_pos_of_mem_split (sep a : Char) (s t : Chars) (hne : a ≠ sep)
    (ht : t ∈ splitOnC sep s) (ha : a ∈ t) : 0 < s.count a := by
  have h1 : 0 < t.count a := List.count_pos_iff.mpr ha
  have h2 : t.count a ∈ (splitOnC sep s).map (fun u => u.count a) :=
    List.mem_map_of_mem _ ht
  have h3 : t.count a ≤ ((splitOnC sep s).map (fun u => u.count a)).sum :=
    List.le_sum_of_mem h2
  rw [splitOnC_count_sum sep a hne s] at h3
  omega

theorem count_tabToSpace (s : Chars) :
    (tabToSpace s).count ' ' = s.count '\t' + s.count ' ' := by
  induction s with
  | nil => simp [tabToSpace]
  | cons c rest ih =>
    unfold tabToSpace at ih ⊢
    simp only [List.map_cons, List.count_cons, ih]
    by_cases hc : c = '\t'
    · simp [hc]
      omega
    · by_cases hc2 : c = ' '
      · simp [hc, hc2]
        omega
      · simp [hc, hc2]

/-- C10: a line is appended to the table by replacing tabs with spaces and
splitting on single spaces, and the pandas row assignment succeeds exactly
when that token list has as many entries as the table has columns (ten);
consequently a line with the ten standard tab-delimited fields whose fields
hide an extra space can never be appended — its token count exceeds ten. -/
theorem c10_row_width (iter : Chars) (d : List Row) :
    (isOkE (add_to_df iter d) = true ↔ (rowTokens iter).length = dfWidth) ∧
    ((splitOnC '\t' iter).length = dfWidth →
      (∃ t ∈ splitOnC '\t' iter, ' ' ∈ t) →
      isOkE (add_to_df iter d) = false) := by
  constructor
  · unfold add_to_df
    split <;> rename_i hcond <;> simp [isOkE, hcond]
  · intro h10 hsp
    obtain ⟨t, ht, hspace⟩ := hsp
    have hlen : (rowTokens iter).length = iter.count '\t' + iter.count ' ' + 1 := by
      unfold rowTokens
      rw [splitOnC_length, count_tabToSpace]
    have htab : iter.count '\t' = 9 := by
      have := splitOnC_length '\t' iter
      rw [h10] at this
      unfold dfWidth at this
      omega
    have hsp1 : 0 < iter.count ' ' :=
      count_pos_of_mem_split '\t' ' ' iter t (by decide) ht hspace
    have hne : (rowTokens iter).length ≠ dfWidth := by
      rw [hlen]
      unfold dfWidth
      omega
    unfold add_to_df
    split <;> simp_all [isOkE]

/-- C10 witness: a line with ten tab-delimited fields whose first field holds
an internal space has eleven space-split tokens, so the append fails. -/
theorem c10_row_width_witness :
    isOkE (add_to_df ("a b\tc\td\te\tf\tg\th\ti\tj\tk").data []) = false :=
  (c10_row_width ("a b\tc\td\te\tf\tg\th\ti\tj\tk").data []).2 (by decide)
    ⟨("a b").data, by decide, by decide⟩

end CnvAnalyzer
